import Mathlib

/-!
Shallow embedding of the booking-form core of the BARBORATEST vacation-rental
site (src/src/components/BookingForm.tsx and the alternate iteration of the
same component in src/unnamed/part_002, lines 253-884, which carries the
richer pricing and guest-detail logic the other copies omit).

Modelling conventions:
- A JS `Date` instant is a calendar day number (days since an arbitrary epoch)
  plus a seconds-past-midnight component; `date-fns` `isSameDay` compares the
  day components, `eachDayOfInterval` iterates start-of-day stamps, and
  `format(d, 'yyyy-MM-dd')` keys a date by its day component.
- `eachDayOfInterval` (date-fns 2.x) raises a `RangeError` when the start of
  the interval lies after the end; that aborts the surrounding handler with no
  state update, modelled by an explicit `thrown` outcome.
- Dates picked through the `DatePicker` widgets are midnight instants, so the
  draft's selected dates are modelled as plain day numbers.
- Money is modelled as exact rationals (JS numbers never round in the ranges
  exercised here, and the spec demands exact arithmetic).
- Supabase query results are passed in explicitly: a fetch is a value of an
  `Except`/flag type describing what the network returned.
-/

/-- A point in time: a calendar day number plus seconds past midnight. -/
structure Instant where
  day : Int
  sec : Nat
deriving DecidableEq, Repr

/-- Chronological order on instants; ISO-8601 string comparison used by the
supabase `gt('expires_at', now.toISOString())` filter coincides with it. -/
def Instant.ltb (a b : Instant) : Bool :=
  a.day < b.day || (a.day == b.day && a.sec < b.sec)

/-- One `bookings` row for a listing: check-in and check-out instants, the
check-out day itself being free for a new arrival. -/
structure Booking where
  check_in : Instant
  check_out : Instant
deriving DecidableEq, Repr

/-- One `apartments` row as used by the booking form. -/
structure Apartment where
  id : String
  name : String
  price_per_night : Rat
deriving DecidableEq, Repr

/-- One `coupons` row. -/
structure Coupon where
  id : String
  code : String
  discount_percent : Rat
  is_active : Bool
  expires_at : Instant
deriving DecidableEq, Repr

/-- The consecutive day numbers from `s` to `e` inclusive, empty when `e < s`:
the day stamps `eachDayOfInterval` yields on a well-ordered interval. -/
def dayRange (s e : Int) : List Int :=
  (List.range (e + 1 - s).toNat).map (fun (i : Nat) => s + (i : Int))

/-- First-occurrence-preserving de-duplication, the insertion-order semantics
of the JS `new Set(...)` pass in `fetchBookedDates`. -/
def jsDedup (l : List Int) : List Int :=
  l.foldl (fun acc d => if d ∈ acc then acc else acc ++ [d]) []

/-- The day stamps one booking contributes in `fetchBookedDates`:
`eachDayOfInterval({ start, end: subDays(end, 1) })`, i.e. the days from the
check-in day through the day before the check-out day. -/
def bookingNights (b : Booking) : List Int :=
  dayRange b.check_in.day (b.check_out.day - 1)

/-- The success path of `fetchBookedDates` (BookingForm.tsx lines 36-68):
expand every booking into its nights, concatenate, and de-duplicate by
calendar date. The result is the derived BlockedDateSet. -/
def fetchBookedDates (bs : List Booking) : List Int :=
  jsDedup (bs.foldl (fun acc b => acc ++ bookingNights b) [])

/-- The `fetchBookedDates` effect including its catch branch: on a failed
fetch the error message is set and `bookedDates` keeps its initial value,
the empty list (BookingForm.tsx lines 61-64). -/
def fetchBookedDatesResult (resp : Except Unit (List Booking)) :
    List Int × Option String :=
  match resp with
  | .ok bs => (fetchBookedDates bs, none)
  | .error _ => ([], some "Failed to fetch available dates")

/-- Membership test against the blocked list, `isDateBooked`
(BookingForm.tsx lines 111-113): true iff some stored date is the same
calendar day. -/
def isDateBooked (bookedDates : List Int) (d : Int) : Bool :=
  bookedDates.any (fun bd => bd == d)

/-- The pricing engine, `calculateTotalPrice` (part_002 lines 325-342): the
nightly subtotal, a flat 10 pet fee when `hasPets`, a flat 15 extra-bed fee
when the listing is the `pikulas` variant and `extraBed` is set, then a
percentage coupon discount subtracted from the fee-inclusive running total. -/
def calculateTotalPrice (apartment : Apartment) (hasPets extraBed : Bool)
    (appliedCoupon : Option Coupon) (numberOfNights : Int) : Rat :=
  let t0 : Rat := (numberOfNights : Rat) * apartment.price_per_night
  let t1 : Rat := if hasPets then t0 + 10 else t0
  let t2 : Rat := if apartment.id == "pikulas" && extraBed then t1 + 15 else t1
  match appliedCoupon with
  | some c => t2 - t2 * (c.discount_percent / 100)
  | none => t2

/-- The in-memory draft booking held by the form, `bookingDetails`
(part_002 lines 268-273; the guest-detail fields beyond name and email exist
only in this iteration of the component). -/
structure Draft where
  apartmentId : String
  checkIn : Option Int
  checkOut : Option Int
  guestName : Option String
  guestEmail : Option String
  country : Option String
  phoneNumber : Option String
  numberOfGuests : Option Nat
  hasPets : Bool
  extraBed : Bool
deriving DecidableEq, Repr

/-- The `useState` initialisation of the draft (part_002 lines 268-273). -/
def initialDraft (apId : String) : Draft :=
  { apartmentId := apId, checkIn := none, checkOut := none, guestName := none
    guestEmail := none, country := none, phoneNumber := none
    numberOfGuests := some 2, hasPets := false, extraBed := false }

/-- JS truthiness of an optional string: `undefined` and the empty string are
falsy. -/
def truthyStr (s : Option String) : Bool :=
  match s with
  | none => false
  | some v => !v.isEmpty

/-- JS truthiness of an optional number: `undefined` and `0` are falsy. -/
def truthyNum (n : Option Nat) : Bool :=
  match n with
  | none => false
  | some v => v != 0

/-- Which date picker fired, the first argument of `handleDateChange`. -/
inductive DateField where
  | checkIn
  | checkOut
deriving DecidableEq, Repr

/-- The draft `handleDateChange` builds before range validation: the chosen
date written into its field, and, for a new check-in at or past the current
check-out, the check-out cleared (part_002 lines 394-409). -/
def proposedDraft (st : Draft) (ty : DateField) (d : Int) : Draft :=
  match ty with
  | .checkIn =>
    { st with
      checkIn := some d
      checkOut := match st.checkOut with
                  | some c => if c ≤ d then none else some c
                  | none => none }
  | .checkOut => { st with checkOut := some d }

/-- Outcome of one `handleDateChange` call. `rejected` is a validation
failure: `setError(msg)` runs and the draft is not written. `committed` is
the success path: `setBookingDetails` runs and the error is cleared.
`thrown` is the `RangeError` date-fns 2.x raises from `eachDayOfInterval`
when the proposed check-out lies before the check-in; the handler aborts
with neither state update. -/
inductive DateChangeResult where
  | rejected (msg : String)
  | committed (nd : Draft)
  | thrown
deriving DecidableEq, Repr

/-- The date-change handler, `handleDateChange` (part_002 lines 389-425,
identical in BookingForm.tsx lines 115-151): reject a blocked chosen date,
build the proposed draft, and when both dates are set reject any proposed
inclusive range containing a blocked day; only then commit. -/
def handleDateChange (booked : List Int) (st : Draft) (ty : DateField)
    (d : Int) : DateChangeResult :=
  if isDateBooked booked d then .rejected "This date is already booked"
  else
    let nd := proposedDraft st ty d
    match nd.checkIn, nd.checkOut with
    | some ci, some co =>
      if co < ci then .thrown
      else if (dayRange ci co).any (fun x => isDateBooked booked x) then
        .rejected "Some days in this range are already booked"
      else .committed nd
    | _, _ => .committed nd

/-- Effect of one `handleDateChange` call on the `(bookingDetails, error)`
pair of React states. -/
def applyDateChange (booked : List Int) (st : Draft × Option String)
    (ty : DateField) (d : Int) : Draft × Option String :=
  match handleDateChange booked st.1 ty d with
  | .rejected msg => (st.1, some msg)
  | .committed nd => (nd, none)
  | .thrown => st

/-- Effect of one `handleDateChange` call on the draft alone. -/
def applyDateChangeDraft (booked : List Int) (st : Draft) (ty : DateField)
    (d : Int) : Draft :=
  match handleDateChange booked st ty d with
  | .committed nd => nd
  | _ => st

/-- One guest-detail `onChange` update: each input spreads the draft and
replaces its own field (part_002 lines 716-808). -/
inductive GuestField where
  | name (v : String)
  | email (v : String)
  | nation (v : String)
  | phone (v : String)
  | guests (n : Nat)
  | pets (b : Bool)
  | bed (b : Bool)

/-- Apply a guest-detail update to the draft. -/
def setGuestField (st : Draft) : GuestField → Draft
  | .name v => { st with guestName := some v }
  | .email v => { st with guestEmail := some v }
  | .nation v => { st with country := some v }
  | .phone v => { st with phoneNumber := some v }
  | .guests n => { st with numberOfGuests := some n }
  | .pets b => { st with hasPets := b }
  | .bed b => { st with extraBed := b }

/-- The draft states one booking-form session can reach: the initial draft,
closed under date-change and guest-detail events against the session's fixed
blocked-date list. -/
inductive Reachable (apId : String) (booked : List Int) : Draft → Prop where
  | init : Reachable apId booked (initialDraft apId)
  | dateStep (st : Draft) (ty : DateField) (d : Int) :
      Reachable apId booked st →
      Reachable apId booked (applyDateChangeDraft booked st ty d)
  | guestStep (st : Draft) (f : GuestField) :
      Reachable apId booked st → Reachable apId booked (setGuestField st f)

/-- Outcome of the submit handler: stay in Editing with a message, or open
the summary (Reviewing). -/
inductive SubmitResult where
  | invalid (msg : String)
  | toSummary
deriving DecidableEq, Repr

/-- The Editing-to-Reviewing transition, `handleSubmit` (part_002 lines
427-443): all required fields present, check-out strictly after check-in,
then `setShowSummary(true)`; no network call is made. -/
def handleSubmit (st : Draft) : SubmitResult :=
  match st.checkIn, st.checkOut with
  | some ci, some co =>
    if truthyStr st.guestEmail && truthyStr st.guestName &&
        truthyStr st.country && truthyStr st.phoneNumber &&
        truthyNum st.numberOfGuests then
      if co ≤ ci then .invalid "Išvykimo data turi būti vėlesnė nei atvykimo data"
      else .toSummary
    else .invalid "Prašome užpildyti visus privalomus laukus"
  | _, _ => .invalid "Prašome užpildyti visus privalomus laukus"

/-- JS `String.prototype.trim`: strip leading and trailing whitespace. -/
def jsTrim (s : String) : String :=
  String.mk
    (((s.data.dropWhile Char.isWhitespace).reverse.dropWhile
        Char.isWhitespace).reverse)

/-- The name-to-identifier map `getApartmentBaseName` (part_002 lines
282-290). -/
def getApartmentBaseName (fullName : String) : String :=
  if fullName == "Senovinis medinis namas \"Gintaras\"" then "gintaras"
  else if fullName == "Dvivietis apartamentas \"Pikulas\"" then "pikulas"
  else if fullName == "Šeimyninis apartamentas \"Māra\"" then "mara"
  else if fullName == "Namelis dviems \"Medeinė\"" then "medeine"
  else fullName.toLower

/-- The Confirming-phase availability re-check (part_002 lines 462-468):
the selected range expanded inclusively, each day compared for same-day
equality against each freshly fetched booking's check-in and check-out
instants: available iff no coincidence. -/
def confirmStillAvailable (checkIn checkOut : Int)
    (latestBookings : List Booking) : Bool :=
  !((dayRange checkIn checkOut).any (fun d =>
      latestBookings.any (fun b =>
        d == b.check_in.day || d == b.check_out.day)))

/-- JS `Math.round`: floor of the argument plus one half. -/
def jsRound (q : Rat) : Int :=
  Int.floor (q + 1 / 2)

/-- The checkout-session creation request the confirm handler posts to the
payment API (part_002 lines 478-504): the line item and the metadata bag. -/
structure CheckoutRequest where
  customerEmail : String
  productName : String
  unitAmount : Int
  quantity : Nat
  apartmentId : String
  apartmentName : String
  checkInDay : Int
  checkOutDay : Int
  guestName : String
  country : String
  phoneNumber : String
  numberOfGuests : Nat
  hasPets : Bool
  extraBed : Bool
  price : Rat
  couponCode : Option String
  discountPercent : Option Rat
deriving DecidableEq, Repr

/-- What the payment API did with the posted request: the fetch rejected,
the response was non-success, its body failed to parse, or it carried a
redirect URL. -/
inductive StripeOutcome where
  | netError (msg : String)
  | httpError (body : String)
  | malformed (msg : String)
  | ok (url : String)
deriving DecidableEq, Repr

/-- Outcome of the confirm handler: a caught failure carrying the message
`setError` receives, or a browser redirect to the returned URL. -/
inductive ConfirmResult where
  | failed (msg : String)
  | redirected (url : String)
deriving DecidableEq, Repr

/-- The confirm handler, `handleConfirmBooking` (part_002 lines 445-530):
require the draft complete, re-check availability against the freshly
fetched bookings, then price the stay, build the checkout request and submit
it; every thrown failure is caught. The second component is the request the
handler posted, `none` when control never reached the post. -/
def handleConfirmBooking (apartment : Apartment) (st : Draft)
    (appliedCoupon : Option Coupon) (latestBookings : List Booking)
    (stripe : StripeOutcome) : ConfirmResult × Option CheckoutRequest :=
  match st.checkIn, st.checkOut with
  | some ci, some co =>
    if truthyStr st.guestEmail && truthyStr st.guestName &&
        truthyStr st.country && truthyStr st.phoneNumber &&
        truthyNum st.numberOfGuests then
      if !(confirmStillAvailable ci co latestBookings) then
        (.failed "Selected dates are no longer available. Please choose different dates.",
         none)
      else
        let numberOfNights := co - ci
        let totalPrice := calculateTotalPrice apartment st.hasPets st.extraBed
          appliedCoupon numberOfNights
        let priceInCents := jsRound (totalPrice * 100)
        let req : CheckoutRequest :=
          { customerEmail := st.guestEmail.getD ""
            productName := apartment.name
            unitAmount := priceInCents
            quantity := 1
            apartmentId := apartment.id
            apartmentName := getApartmentBaseName apartment.name
            checkInDay := ci
            checkOutDay := co
            guestName := st.guestName.getD ""
            country := st.country.getD ""
            phoneNumber := st.phoneNumber.getD ""
            numberOfGuests := st.numberOfGuests.getD 0
            hasPets := st.hasPets
            extraBed := st.extraBed
            price := totalPrice
            couponCode := appliedCoupon.map (fun c => c.code)
            discountPercent := appliedCoupon.map (fun c => c.discount_percent) }
        match stripe with
        | .netError msg => (.failed msg, some req)
        | .httpError _ => (.failed "Failed to create checkout session", some req)
        | .malformed msg => (.failed msg, some req)
        | .ok url => (.redirected url, some req)
    else (.failed "Please fill in all required fields", none)
  | _, _ => (.failed "Please fill in all required fields", none)

/-- The booking-form state the confirm handler touches. `showSummary` true
is the Reviewing phase, `showSummary` false the Editing phase; `isLoading`
true while a confirm is in flight is the Confirming phase. -/
structure SummaryState where
  error : Option String
  showSummary : Bool
  isLoading : Bool
deriving DecidableEq, Repr

/-- Effect of the confirm outcome on the form state: the catch block runs
`setError(msg)` and `setShowSummary(false)`, the `finally` block clears
`isLoading` either way (part_002 lines 524-529); on success the browser is
navigated and neither flag is touched. -/
def applyConfirmOutcome (st : SummaryState) (r : ConfirmResult) : SummaryState :=
  match r with
  | .failed msg => { st with error := some msg, showSummary := false, isLoading := false }
  | .redirected _ => { st with error := none, isLoading := false }

/-- The rows the coupon query returns (part_002 lines 349-355): exact
case-sensitive code match, `is_active` true, `expires_at` strictly after
the validation instant. -/
def couponQueryMatches (table : List Coupon) (code : String) (now : Instant) :
    List Coupon :=
  table.filter (fun c =>
    c.code == code && c.is_active && Instant.ltb now c.expires_at)

/-- Supabase `.single()` on the filtered rows: the row when exactly one
matched, otherwise an error flag. -/
def couponSingle (table : List Coupon) (code : String) (now : Instant) :
    Option Coupon × Bool :=
  match couponQueryMatches table code now with
  | [c] => (some c, false)
  | _ => (none, true)

/-- The coupon-validation state after one `validateCoupon` run: the
`appliedCoupon` and `error` React states and the handler's return value. -/
structure CouponState where
  appliedCoupon : Option Coupon
  error : Option String
  success : Bool
deriving DecidableEq, Repr

/-- The tail of `validateCoupon` (part_002 lines 344-375) applied to what
the store returned: a thrown store or `.single()` error reaches the catch
block, which clears the applied coupon; a row applies it; a null row without
an error (unreachable through `.single()`, but present in the code) also
clears it. -/
def validateCoupon (data : Option Coupon) (err : Bool) : CouponState :=
  if err then
    { appliedCoupon := none, error := some "Failed to validate coupon", success := false }
  else
    match data with
    | some c => { appliedCoupon := some c, error := none, success := true }
    | none =>
      { appliedCoupon := none, error := some "Invalid or expired coupon code", success := false }

/-- Result of one `handleApplyCoupon` click: whether the store was queried
at all, and the resulting applied-coupon and error states. -/
structure ApplyCouponResult where
  networkCalled : Bool
  appliedCoupon : Option Coupon
  error : Option String
deriving DecidableEq, Repr

/-- The apply-coupon click handler, `handleApplyCoupon` (BookingForm.tsx
lines 103-109, identical in part_002 lines 377-383): a code that trims to
empty short-circuits into a local error with no network call; otherwise
`validateCoupon` runs on the trimmed code. `storeErr` models a failed
store request (the thrown supabase error). -/
def handleApplyCoupon (couponCode : String) (prevApplied : Option Coupon)
    (table : List Coupon) (storeErr : Bool) (now : Instant) :
    ApplyCouponResult :=
  if jsTrim couponCode == "" then
    { networkCalled := false, appliedCoupon := prevApplied
      error := some "Please enter a coupon code" }
  else
    let res := if storeErr then (none, true)
               else couponSingle table (jsTrim couponCode) now
    let cs := validateCoupon res.1 res.2
    { networkCalled := true, appliedCoupon := cs.appliedCoupon, error := cs.error }

/-- A listing used in concrete scenarios: the Gintaras house at 100 per
night. -/
def gintaras : Apartment :=
  { id := "gintaras", name := "Senovinis medinis namas \"Gintaras\"",
    price_per_night := 100 }

/-- The 10-percent scenario coupon, active and expiring in the future. -/
def save10 : Coupon :=
  { id := "c1", code := "SAVE10", discount_percent := 10, is_active := true,
    expires_at := { day := 30000, sec := 0 } }

/-- An inactive coupon row used in the C10 witness. -/
def oldCoupon : Coupon :=
  { id := "c2", code := "OLD", discount_percent := 5, is_active := false,
    expires_at := { day := 30000, sec := 0 } }

/-- A fully filled-in draft selecting day 2 to day 3, used in concrete
confirm-phase scenarios. -/
def completeDraft : Draft :=
  { apartmentId := "gintaras", checkIn := some 2, checkOut := some 3,
    guestName := some "Jonas Jonaitis", guestEmail := some "jonas@example.lt",
    country := some "Lietuva", phoneNumber := some "+37060000000",
    numberOfGuests := some 2, hasPets := false, extraBed := false }

/-- Both dates set implies the check-out day is on or after the check-in
day. -/
def datesOrdered (st : Draft) : Prop :=
  ∀ ci co, st.checkIn = some ci → st.checkOut = some co → ci ≤ co

/-- The reachable draft of the C7 counterexample: both dates on day 10. -/
def sameDayDraft : Draft :=
  { apartmentId := "gintaras", checkIn := some 10, checkOut := some 10,
    guestName := none, guestEmail := none, country := none,
    phoneNumber := none, numberOfGuests := some 2, hasPets := false,
    extraBed := false }

theorem mem_dayRange (s e d : Int) : d ∈ dayRange s e ↔ s ≤ d ∧ d ≤ e := by
  simp only [dayRange, List.mem_map, List.mem_range]
  constructor
  · rintro ⟨i, hi, rfl⟩
    omega
  · rintro ⟨h1, h2⟩
    exact ⟨(d - s).toNat, by omega, by omega⟩

theorem jsDedup_foldl_mem (l acc : List Int) (x : Int) :
    x ∈ l.foldl (fun acc d => if d ∈ acc then acc else acc ++ [d]) acc ↔
      x ∈ acc ∨ x ∈ l := by
  induction l generalizing acc with
  | nil => simp
  | cons d l ih =>
    simp only [List.foldl_cons, ih, List.mem_cons]
    by_cases hd : d ∈ acc
    · simp only [hd, if_pos]
      constructor
      · rintro (h | h)
        · exact Or.inl h
        · exact Or.inr (Or.inr h)
      · rintro (h | rfl | h)
        · exact Or.inl h
        · exact Or.inl hd
        · exact Or.inr h
    · simp only [hd, if_neg, not_false_iff, List.mem_append, List.mem_singleton]
      tauto

theorem jsDedup_foldl_nodup (l : List Int) (acc : List Int) (h : acc.Nodup) :
    (l.foldl (fun acc d => if d ∈ acc then acc else acc ++ [d]) acc).Nodup := by
  induction l generalizing acc with
  | nil => exact h
  | cons d l ih =>
    simp only [List.foldl_cons]
    by_cases hd : d ∈ acc
    · simpa [hd] using ih acc h
    · refine ih _ ?_
      simp only [hd, if_neg, not_false_iff]
      exact List.nodup_append.mpr ⟨h, List.nodup_singleton d, by simpa using hd⟩

theorem mem_jsDedup (l : List Int) (x : Int) : x ∈ jsDedup l ↔ x ∈ l := by
  unfold jsDedup
  rw [jsDedup_foldl_mem]
  simp

theorem nodup_jsDedup (l : List Int) : (jsDedup l).Nodup :=
  jsDedup_foldl_nodup l [] List.nodup_nil

theorem mem_bookingNights (b : Booking) (d : Int) :
    d ∈ bookingNights b ↔ b.check_in.day ≤ d ∧ d ≤ b.check_out.day - 1 := by
  unfold bookingNights
  exact mem_dayRange _ _ d

theorem concat_nights_mem (bs : List Booking) (acc : List Int) (x : Int) :
    x ∈ bs.foldl (fun acc b => acc ++ bookingNights b) acc ↔
      x ∈ acc ∨ ∃ b ∈ bs, x ∈ bookingNights b := by
  induction bs generalizing acc with
  | nil => simp
  | cons b bs ih =>
    simp only [List.foldl_cons, ih, List.mem_append, List.mem_cons]
    constructor
    · rintro ((h | h) | ⟨b', hb', hx⟩)
      · exact Or.inl h
      · exact Or.inr ⟨b, Or.inl rfl, h⟩
      · exact Or.inr ⟨b', Or.inr hb', hx⟩
    · rintro (h | ⟨b', (rfl | hb'), hx⟩)
      · exact Or.inl (Or.inl h)
      · exact Or.inl (Or.inr hx)
      · exact Or.inr ⟨b', hb', hx⟩

/-- Membership in the derived BlockedDateSet: exactly the days some booking
covers as a night, the check-out day excluded. -/
theorem mem_fetchBookedDates (bs : List Booking) (d : Int) :
    d ∈ fetchBookedDates bs ↔
      ∃ b ∈ bs, b.check_in.day ≤ d ∧ d ≤ b.check_out.day - 1 := by
  unfold fetchBookedDates
  rw [mem_jsDedup, concat_nights_mem]
  simp only [List.not_mem_nil, false_or]
  constructor
  · rintro ⟨b, hb, hx⟩
    exact ⟨b, hb, (mem_bookingNights b d).mp hx⟩
  · rintro ⟨b, hb, hx⟩
    exact ⟨b, hb, (mem_bookingNights b d).mpr hx⟩

/-- C4: for all inputs the computed total is nights times the nightly rate,
plus a fixed 10 pet surcharge when `hasPets`, plus a fixed 15 extra-bed
surcharge when `extraBed` and the listing is the pikulas variant, minus
subtotal times percent over one hundred when a coupon is applied, the
discount applying to the full fee-inclusive subtotal; with no fees and no
coupon the total is exactly nights times rate, and a 10-percent coupon on a
3-night 100-per-night stay yields exactly 270. -/
theorem c4_pricing_formula :
    (∀ (ap : Apartment) (hasPets extraBed : Bool) (c : Coupon) (n : Int),
      calculateTotalPrice ap hasPets extraBed (some c) n =
        ((n : Rat) * ap.price_per_night + (if hasPets then 10 else 0) +
            (if ap.id == "pikulas" && extraBed then 15 else 0)) -
          ((n : Rat) * ap.price_per_night + (if hasPets then 10 else 0) +
            (if ap.id == "pikulas" && extraBed then 15 else 0)) *
            (c.discount_percent / 100)) ∧
    (∀ (ap : Apartment) (hasPets extraBed : Bool) (n : Int),
      calculateTotalPrice ap hasPets extraBed none n =
        (n : Rat) * ap.price_per_night + (if hasPets then 10 else 0) +
          (if ap.id == "pikulas" && extraBed then 15 else 0)) ∧
    (∀ (ap : Apartment) (n : Int),
      calculateTotalPrice ap false false none n = (n : Rat) * ap.price_per_night) ∧
    calculateTotalPrice gintaras false false (some save10) 3 = 270 := by
  refine ⟨?_, ?_, ?_, ?_⟩
  · intro ap hasPets extraBed c n
    unfold calculateTotalPrice
    cases hasPets <;> cases hbe : (ap.id == "pikulas" && extraBed) <;>
      simp [hbe] <;> ring
  · intro ap hasPets extraBed n
    unfold calculateTotalPrice
    cases hasPets <;> cases hbe : (ap.id == "pikulas" && extraBed) <;>
      simp [hbe] <;> ring
  · intro ap n
    unfold calculateTotalPrice
    simp
  · norm_num [calculateTotalPrice, gintaras, save10]

/-- C5 counterexample: with the pet flag set, zero nights yields the flat
pet fee 10, not 0, so the claim fails for that pet flag. -/
theorem c5_counterexample :
    calculateTotalPrice gintaras true false none 0 = 10 ∧ (10 : Rat) ≠ 0 := by
  constructor
  · norm_num [calculateTotalPrice, gintaras]
  · norm_num

/-- C5 as amended: with no pet fee and no applicable extra-bed fee, zero
nights yields total 0 for every rate and coupon (and the function is total,
so no error); in general zero nights yields the flat fees less the coupon
discount on them. -/
theorem c5_zero_nights :
    (∀ (ap : Apartment) (coupon : Option Coupon),
      calculateTotalPrice ap false false coupon 0 = 0) ∧
    (∀ (ap : Apartment) (hasPets extraBed : Bool) (c : Coupon),
      calculateTotalPrice ap hasPets extraBed (some c) 0 =
        ((if hasPets then (10 : Rat) else 0) +
            (if ap.id == "pikulas" && extraBed then 15 else 0)) -
          ((if hasPets then (10 : Rat) else 0) +
            (if ap.id == "pikulas" && extraBed then 15 else 0)) *
            (c.discount_percent / 100)) ∧
    (∀ (ap : Apartment) (hasPets extraBed : Bool),
      calculateTotalPrice ap hasPets extraBed none 0 =
        (if hasPets then (10 : Rat) else 0) +
          (if ap.id == "pikulas" && extraBed then 15 else 0)) := by
  refine ⟨?_, ?_, ?_⟩
  · intro ap coupon
    cases coupon <;> simp [calculateTotalPrice]
  · intro ap hasPets extraBed c
    unfold calculateTotalPrice
    cases hasPets <;> cases hbe : (ap.id == "pikulas" && extraBed) <;>
      simp [hbe] <;> ring
  · intro ap hasPets extraBed
    unfold calculateTotalPrice
    cases hasPets <;> cases hbe : (ap.id == "pikulas" && extraBed) <;>
      simp [hbe] <;> ring

/-- C8: a coupon code that is empty or whitespace-only after trimming makes
the apply-coupon handler short-circuit: no network call, a local validation
error message, and the applied-coupon state untouched, so no discount is
applied by the attempt. -/
theorem c8_empty_code_local_error (code : String) (prevApplied : Option Coupon)
    (table : List Coupon) (storeErr : Bool) (now : Instant)
    (h : jsTrim code = "") :
    handleApplyCoupon code prevApplied table storeErr now =
      { networkCalled := false, appliedCoupon := prevApplied,
        error := some "Please enter a coupon code" } := by
  unfold handleApplyCoupon
  simp [h]

/-- C8 witness: a whitespace-only code at a concrete state. -/
theorem c8_empty_code_local_error_witness :
    jsTrim "   " = "" ∧
    handleApplyCoupon "   " (some save10) [] false { day := 0, sec := 0 } =
      { networkCalled := false, appliedCoupon := some save10,
        error := some "Please enter a coupon code" } :=
  ⟨by decide,
   c8_empty_code_local_error "   " (some save10) [] false { day := 0, sec := 0 }
     (by decide)⟩

/-- C10: every failed coupon validation ends with the applied-coupon state
cleared to null, whatever was applied before; and a code whose only matching
rows are inactive or expired always fails that way, because the query
filters them out and `.single()` then errors. -/
theorem c10_failed_validation_clears_coupon :
    (∀ (data : Option Coupon) (err : Bool),
      (validateCoupon data err).success = false →
        (validateCoupon data err).appliedCoupon = none) ∧
    (∀ (table : List Coupon) (code : String) (now : Instant),
      (∀ c ∈ table, c.code = code →
        c.is_active = false ∨ Instant.ltb now c.expires_at = false) →
      validateCoupon (couponSingle table code now).1 (couponSingle table code now).2 =
        { appliedCoupon := none, error := some "Failed to validate coupon",
          success := false }) := by
  constructor
  · intro data err h
    unfold validateCoupon at h ⊢
    by_cases he : err = true
    · simp [he]
    · simp only [Bool.not_eq_true] at he
      cases data <;> simp_all
  · intro table code now h
    have hempty : couponQueryMatches table code now = [] := by
      unfold couponQueryMatches
      rw [List.filter_eq_nil_iff]
      intro c hc
      by_cases hcode : c.code = code
      · rcases h c hc hcode with h1 | h1 <;> simp [hcode, h1]
      · simp [hcode]
    unfold couponSingle
    rw [hempty]
    rfl

/-- C10 witness: an inactive matching coupon after a successful earlier
application. -/
theorem c10_failed_validation_clears_coupon_witness :
    ((validateCoupon none true).success = false ∧
      (validateCoupon none true).appliedCoupon = none) ∧
    ((∀ c ∈ [oldCoupon], c.code = "OLD" →
        c.is_active = false ∨
          Instant.ltb { day := 0, sec := 0 } c.expires_at = false) ∧
      validateCoupon
          (couponSingle [oldCoupon] "OLD" { day := 0, sec := 0 }).1
          (couponSingle [oldCoupon] "OLD" { day := 0, sec := 0 }).2 =
        { appliedCoupon := none, error := some "Failed to validate coupon",
          success := false }) :=
  ⟨⟨by decide, c10_failed_validation_clears_coupon.1 none true (by decide)⟩,
   ⟨by decide,
    c10_failed_validation_clears_coupon.2 [oldCoupon] "OLD" { day := 0, sec := 0 }
      (by decide)⟩⟩

/-- C3 counterexample: with bookings day 0 to day 4 and day 4 to day 7, the
first booking's check-out day 4 is in the derived BlockedDateSet (the second
booking blocks it), so a check-out calendar day can be in the set. -/
theorem c3_counterexample :
    (Booking.mk { day := 0, sec := 0 } { day := 4, sec := 0 }).check_out.day ∈
      fetchBookedDates
        [Booking.mk { day := 0, sec := 0 } { day := 4, sec := 0 },
         Booking.mk { day := 4, sec := 0 } { day := 7, sec := 0 }] ∧
    Booking.mk { day := 0, sec := 0 } { day := 4, sec := 0 } ∈
      [Booking.mk { day := 0, sec := 0 } { day := 4, sec := 0 },
       Booking.mk { day := 4, sec := 0 } { day := 7, sec := 0 }] := by
  decide

/-- C3 as amended: over well-formed booking records the BlockedDateSet holds
exactly the calendar days from some booking's check-in through the day
before its check-out, without duplicates (union semantics: no double-count,
no under-block); a booking never contributes its own check-out day, so that
day is in the set only when a different booking's night range covers it. -/
theorem c3_blocked_set_characterisation (bs : List Booking)
    (hwf : ∀ b ∈ bs, b.check_in.day < b.check_out.day) :
    (∀ d : Int, d ∈ fetchBookedDates bs ↔
      ∃ b ∈ bs, b.check_in.day ≤ d ∧ d ≤ b.check_out.day - 1) ∧
    (fetchBookedDates bs).Nodup ∧
    (∀ b ∈ bs, b.check_out.day ∈ fetchBookedDates bs →
      ∃ b' ∈ bs, b' ≠ b ∧ b'.check_in.day ≤ b.check_out.day ∧
        b.check_out.day ≤ b'.check_out.day - 1) := by
  refine ⟨fun d => mem_fetchBookedDates bs d, ?_, ?_⟩
  · unfold fetchBookedDates
    exact nodup_jsDedup _
  · intro b hb hmem
    obtain ⟨b', hb', h1, h2⟩ := (mem_fetchBookedDates bs _).mp hmem
    refine ⟨b', hb', ?_, h1, h2⟩
    rintro rfl
    omega

/-- C3 witness: the characterisation at a single two-night booking. -/
theorem c3_blocked_set_characterisation_witness :
    (∀ b ∈ [Booking.mk { day := 0, sec := 0 } { day := 2, sec := 0 }],
      b.check_in.day < b.check_out.day) ∧
    ((∀ d : Int,
        d ∈ fetchBookedDates [Booking.mk { day := 0, sec := 0 } { day := 2, sec := 0 }] ↔
        ∃ b ∈ [Booking.mk { day := 0, sec := 0 } { day := 2, sec := 0 }],
          b.check_in.day ≤ d ∧ d ≤ b.check_out.day - 1) ∧
      (fetchBookedDates [Booking.mk { day := 0, sec := 0 } { day := 2, sec := 0 }]).Nodup ∧
      (∀ b ∈ [Booking.mk { day := 0, sec := 0 } { day := 2, sec := 0 }],
        b.check_out.day ∈
          fetchBookedDates [Booking.mk { day := 0, sec := 0 } { day := 2, sec := 0 }] →
        ∃ b' ∈ [Booking.mk { day := 0, sec := 0 } { day := 2, sec := 0 }],
          b' ≠ b ∧ b'.check_in.day ≤ b.check_out.day ∧
            b.check_out.day ≤ b'.check_out.day - 1)) :=
  ⟨by decide, c3_blocked_set_characterisation _ (by decide)⟩

/-- C2: after a failed availability fetch the form reports the error but
keeps `bookedDates` empty, so every date is treated as implicitly free: the
blocked test is false for every date and the date-change handler accepts any
chosen check-in, contrary to the claim that no date may be selected or
booked after a failed fetch. -/
theorem c2_fetch_failure_leaves_all_dates_selectable :
    fetchBookedDatesResult (Except.error ()) =
      ([], some "Failed to fetch available dates") ∧
    (∀ d : Int, isDateBooked [] d = false) ∧
    (∀ d : Int, handleDateChange [] (initialDraft "gintaras") .checkIn d =
      .committed { initialDraft "gintaras" with checkIn := some d }) := by
  refine ⟨rfl, fun d => rfl, fun d => rfl⟩

/-- C1 counterexample: an existing booking from day 1 to day 5 puts day 2 of
the selected range (day 2 to day 3) in the recomputed BlockedDateSet, yet
the Confirming re-check passes and the handler issues a checkout request:
the re-check compares the selected days only against each booking's check-in
and check-out days, not against the BlockedDateSet. -/
theorem c1_counterexample :
    (2 : Int) ∈ fetchBookedDates [Booking.mk { day := 1, sec := 0 } { day := 5, sec := 0 }] ∧
    completeDraft.checkIn = some 2 ∧ completeDraft.checkOut = some 3 ∧
    confirmStillAvailable 2 3 [Booking.mk { day := 1, sec := 0 } { day := 5, sec := 0 }] = true ∧
    ((handleConfirmBooking gintaras completeDraft none
        [Booking.mk { day := 1, sec := 0 } { day := 5, sec := 0 }]
        (.ok "https://stripe.example/session")).2).isSome = true := by
  refine ⟨by decide, rfl, rfl, by decide, ?_⟩
  rfl

/-- C1 as amended: given a complete draft, the Confirming phase re-fetches
the listing's bookings but re-validates the selected range only against each
fetched booking's check-in and check-out calendar days: it issues a checkout
request iff no day of the inclusive selected range coincides with one of
those, and on a coincidence it fails with the availability-conflict message
and issues no checkout request. -/
theorem c1_confirm_recheck (ap : Apartment) (st : Draft)
    (coupon : Option Coupon) (latest : List Booking) (stripe : StripeOutcome)
    (ci co : Int) (hci : st.checkIn = some ci) (hco : st.checkOut = some co)
    (hfields : (truthyStr st.guestEmail && truthyStr st.guestName &&
      truthyStr st.country && truthyStr st.phoneNumber &&
      truthyNum st.numberOfGuests) = true) :
    (((handleConfirmBooking ap st coupon latest stripe).2).isSome = true ↔
      ∀ d ∈ dayRange ci co, ∀ b ∈ latest,
        d ≠ b.check_in.day ∧ d ≠ b.check_out.day) ∧
    (confirmStillAvailable ci co latest = false →
      handleConfirmBooking ap st coupon latest stripe =
        (.failed "Selected dates are no longer available. Please choose different dates.",
         none)) := by
  have havail : confirmStillAvailable ci co latest = true ↔
      ∀ d ∈ dayRange ci co, ∀ b ∈ latest,
        d ≠ b.check_in.day ∧ d ≠ b.check_out.day := by
    unfold confirmStillAvailable
    simp [List.any_eq_true, not_or]
  constructor
  · rw [← havail]
    unfold handleConfirmBooking
    rw [hci, hco]
    dsimp only
    rw [if_pos hfields]
    cases hav : confirmStillAvailable ci co latest
    · rw [if_pos (by decide)]
      simp
    · rw [if_neg (by decide)]
      cases stripe <;> simp
  · intro hfalse
    unfold handleConfirmBooking
    rw [hci, hco]
    dsimp only
    rw [if_pos hfields, hfalse, if_pos (by decide)]

/-- C1 witness: a conflicting re-fetched booking whose check-in day falls
inside the selected range. -/
theorem c1_confirm_recheck_witness :
    (completeDraft.checkIn = some 2 ∧ completeDraft.checkOut = some 3 ∧
      (truthyStr completeDraft.guestEmail && truthyStr completeDraft.guestName &&
        truthyStr completeDraft.country && truthyStr completeDraft.phoneNumber &&
        truthyNum completeDraft.numberOfGuests) = true) ∧
    ((((handleConfirmBooking gintaras completeDraft none
          [Booking.mk { day := 3, sec := 0 } { day := 6, sec := 0 }]
          (.ok "https://stripe.example/session")).2).isSome = true ↔
        ∀ d ∈ dayRange 2 3,
          ∀ b ∈ [Booking.mk { day := 3, sec := 0 } { day := 6, sec := 0 }],
            d ≠ b.check_in.day ∧ d ≠ b.check_out.day) ∧
      (confirmStillAvailable 2 3
          [Booking.mk { day := 3, sec := 0 } { day := 6, sec := 0 }] = false →
        handleConfirmBooking gintaras completeDraft none
            [Booking.mk { day := 3, sec := 0 } { day := 6, sec := 0 }]
            (.ok "https://stripe.example/session") =
          (.failed "Selected dates are no longer available. Please choose different dates.",
           none))) :=
  ⟨⟨rfl, rfl, by decide⟩,
   c1_confirm_recheck gintaras completeDraft none
     [Booking.mk { day := 3, sec := 0 } { day := 6, sec := 0 }]
     (.ok "https://stripe.example/session") 2 3 rfl rfl (by decide)⟩

/-- C6 counterexample: starting from Reviewing (`showSummary` true), a
non-success checkout response ends with `showSummary` false: the flow
returns to Editing with the error attached, not to Reviewing as claimed. -/
theorem c6_counterexample :
    (applyConfirmOutcome { error := none, showSummary := true, isLoading := true }
        (handleConfirmBooking gintaras completeDraft none []
          (.httpError "card_declined")).1).showSummary = false ∧
    (applyConfirmOutcome { error := none, showSummary := true, isLoading := true }
        (handleConfirmBooking gintaras completeDraft none []
          (.httpError "card_declined")).1).error =
      some "Failed to create checkout session" := by
  constructor <;> rfl

/-- C6 as amended: every failure during the Confirming phase (availability
conflict, network failure, non-success checkout response, or malformed
response) ends in a caught failure whose state update attaches the error and
sets `showSummary` false, i.e. the flow transitions back to the Editing
state, not Reviewing; it does not retry automatically, issuing at most one
checkout request per invocation. -/
theorem c6_confirm_failures_return_to_editing (ap : Apartment) (st : Draft)
    (coupon : Option Coupon) (latest : List Booking) (stripe : StripeOutcome)
    (s : SummaryState) (hfail : ∀ url, stripe ≠ .ok url) :
    (∃ msg, (handleConfirmBooking ap st coupon latest stripe).1 = .failed msg ∧
      applyConfirmOutcome s (handleConfirmBooking ap st coupon latest stripe).1 =
        { s with error := some msg, showSummary := false, isLoading := false }) ∧
    ((handleConfirmBooking ap st coupon latest stripe).2).toList.length ≤ 1 := by
  constructor
  · have hgen : ∀ r : ConfirmResult, (∃ u, r = .redirected u) ∨
        (∃ msg, r = .failed msg ∧ applyConfirmOutcome s r =
          { s with error := some msg, showSummary := false, isLoading := false }) := by
      intro r
      cases r with
      | failed msg => exact Or.inr ⟨msg, rfl, rfl⟩
      | redirected u => exact Or.inl ⟨u, rfl⟩
    rcases hgen (handleConfirmBooking ap st coupon latest stripe).1 with ⟨u, hu⟩ | h
    · exfalso
      unfold handleConfirmBooking at hu
      rcases hci : st.checkIn with _ | ci <;> rw [hci] at hu
      · simp at hu
      · rcases hco : st.checkOut with _ | co <;> rw [hco] at hu
        · simp at hu
        · by_cases hf : (truthyStr st.guestEmail && truthyStr st.guestName &&
              truthyStr st.country && truthyStr st.phoneNumber &&
              truthyNum st.numberOfGuests) = true
          · rw [hf] at hu
            simp only [if_true] at hu
            by_cases hav : confirmStillAvailable ci co latest = true
            · rw [hav] at hu
              simp only [Bool.not_true, Bool.false_eq_true, if_false] at hu
              cases stripe with
              | netError m => cases hu
              | httpError b => cases hu
              | malformed m => cases hu
              | ok url => exact hfail url rfl
            · have hav' : confirmStillAvailable ci co latest = false := by
                cases h : confirmStillAvailable ci co latest
                · rfl
                · exact absurd h hav
              rw [hav'] at hu
              simp at hu
          · have hf' : (truthyStr st.guestEmail && truthyStr st.guestName &&
                truthyStr st.country && truthyStr st.phoneNumber &&
                truthyNum st.numberOfGuests) = false := by
              cases h : (truthyStr st.guestEmail && truthyStr st.guestName &&
                truthyStr st.country && truthyStr st.phoneNumber &&
                truthyNum st.numberOfGuests)
              · rfl
              · exact absurd h hf
            rw [hf'] at hu
            simp at hu
    · exact h
  · rcases h : (handleConfirmBooking ap st coupon latest stripe).2 with _ | req <;> simp

/-- C6 witness: a network failure of the checkout post at a Reviewing
state. -/
theorem c6_confirm_failures_return_to_editing_witness :
    (∀ url, (StripeOutcome.netError "Failed to fetch") ≠ .ok url) ∧
    ((∃ msg, (handleConfirmBooking gintaras completeDraft none []
        (.netError "Failed to fetch")).1 = .failed msg ∧
      applyConfirmOutcome { error := none, showSummary := true, isLoading := true }
          (handleConfirmBooking gintaras completeDraft none []
            (.netError "Failed to fetch")).1 =
        { error := some msg, showSummary := false, isLoading := false }) ∧
    ((handleConfirmBooking gintaras completeDraft none []
        (.netError "Failed to fetch")).2).toList.length ≤ 1) :=
  ⟨(fun url h => by cases h),
   c6_confirm_failures_return_to_editing gintaras completeDraft none []
     (.netError "Failed to fetch")
     { error := none, showSummary := true, isLoading := true }
     (fun url h => by cases h)⟩

/-- C9: date-change handling is atomic. A blocked chosen date, or a
well-ordered proposed range containing a blocked day, leaves the draft (both
dates and every guest field) exactly unchanged with only the error message
set; and whenever the handler commits, it commits exactly the proposed
update, the chosen date is unblocked and the committed range is entirely
free, so the draft is updated only when the full validation passes. -/
theorem c9_date_change_atomic (booked : List Int) (st : Draft)
    (e : Option String) (ty : DateField) (d : Int) :
    (isDateBooked booked d = true →
      applyDateChange booked (st, e) ty d =
        (st, some "This date is already booked")) ∧
    (∀ ci co, isDateBooked booked d = false →
      (proposedDraft st ty d).checkIn = some ci →
      (proposedDraft st ty d).checkOut = some co →
      ci ≤ co →
      (dayRange ci co).any (fun x => isDateBooked booked x) = true →
      applyDateChange booked (st, e) ty d =
        (st, some "Some days in this range are already booked")) ∧
    (∀ nd, handleDateChange booked st ty d = .committed nd →
      applyDateChange booked (st, e) ty d = (nd, none) ∧
      nd = proposedDraft st ty d ∧
      isDateBooked booked d = false ∧
      (∀ ci co, nd.checkIn = some ci → nd.checkOut = some co →
        (dayRange ci co).all (fun x => !(isDateBooked booked x)) = true)) := by
  refine ⟨?_, ?_, ?_⟩
  · intro h
    simp [applyDateChange, handleDateChange, h]
  · intro ci co h hci hco hle hany
    unfold applyDateChange handleDateChange
    rw [h]
    dsimp only
    rw [hci, hco]
    dsimp only
    rw [if_neg (show ¬co < ci by omega), if_pos hany]
    simp
  · intro nd hnd
    have hnd0 := hnd
    unfold handleDateChange at hnd
    by_cases h : isDateBooked booked d = true
    · rw [h] at hnd
      simp at hnd
    · have h' : isDateBooked booked d = false := by
        cases hb : isDateBooked booked d
        · rfl
        · exact absurd hb h
      rw [h'] at hnd
      dsimp only at hnd
      rcases hci : (proposedDraft st ty d).checkIn with _ | ci <;> rw [hci] at hnd
      · rcases hco : (proposedDraft st ty d).checkOut with _ | co <;>
          rw [hco] at hnd <;> dsimp only at hnd
        · cases hnd
          exact ⟨by unfold applyDateChange; rw [hnd0], rfl, h', by
            intro ci' co' hci' hco'
            rw [hci] at hci'
            cases hci'⟩
        · cases hnd
          exact ⟨by unfold applyDateChange; rw [hnd0], rfl, h', by
            intro ci' co' hci' hco'
            rw [hci] at hci'
            cases hci'⟩
      · rcases hco : (proposedDraft st ty d).checkOut with _ | co <;>
          rw [hco] at hnd <;> dsimp only at hnd
        · cases hnd
          exact ⟨by unfold applyDateChange; rw [hnd0], rfl, h', by
            intro ci' co' hci' hco'
            rw [hco] at hco'
            cases hco'⟩
        · by_cases hlt : co < ci
          · rw [if_pos hlt] at hnd
            cases hnd
          · rw [if_neg hlt] at hnd
            by_cases hany : (dayRange ci co).any (fun x => isDateBooked booked x) = true
            · rw [if_pos hany] at hnd
              cases hnd
            · have hany' : (dayRange ci co).any (fun x => isDateBooked booked x) = false := by
                cases hb : (dayRange ci co).any (fun x => isDateBooked booked x)
                · rfl
                · exact absurd hb hany
              rw [hany'] at hnd
              simp only [Bool.false_eq_true, if_false] at hnd
              cases hnd
              refine ⟨by unfold applyDateChange; rw [hnd0], rfl, h', ?_⟩
              intro ci' co' hci' hco'
              rw [hci] at hci'
              rw [hco] at hco'
              cases hci'
              cases hco'
              rw [List.all_eq_true]
              intro x hx
              have := (List.any_eq_false).mp hany' x hx
              simp [this]

theorem handleDateChange_committed_inv (booked : List Int) (st : Draft)
    (ty : DateField) (d : Int) (nd : Draft)
    (hnd : handleDateChange booked st ty d = .committed nd) :
    nd = proposedDraft st ty d ∧ isDateBooked booked d = false ∧
    (∀ ci co, nd.checkIn = some ci → nd.checkOut = some co →
      ci ≤ co ∧
        (dayRange ci co).any (fun x => isDateBooked booked x) = false) := by
  unfold handleDateChange at hnd
  by_cases hb : isDateBooked booked d = true
  · rw [hb] at hnd
    simp at hnd
  · have hb' : isDateBooked booked d = false := by
      cases hx : isDateBooked booked d
      · rfl
      · exact absurd hx hb
    rw [hb'] at hnd
    dsimp only at hnd
    rcases hci : (proposedDraft st ty d).checkIn with _ | ci <;> rw [hci] at hnd
    · rcases hco : (proposedDraft st ty d).checkOut with _ | co <;>
        rw [hco] at hnd <;> dsimp only at hnd
      · cases hnd
        refine ⟨rfl, hb', ?_⟩
        intro ci' co' h1 h2
        rw [hci] at h1
        cases h1
      · cases hnd
        refine ⟨rfl, hb', ?_⟩
        intro ci' co' h1 h2
        rw [hci] at h1
        cases h1
    · rcases hco : (proposedDraft st ty d).checkOut with _ | co <;>
        rw [hco] at hnd <;> dsimp only at hnd
      · cases hnd
        refine ⟨rfl, hb', ?_⟩
        intro ci' co' h1 h2
        rw [hco] at h2
        cases h2
      · by_cases hlt : co < ci
        · rw [if_pos hlt] at hnd
          cases hnd
        · rw [if_neg hlt] at hnd
          by_cases ha : (dayRange ci co).any (fun x => isDateBooked booked x) = true
          · rw [if_pos ha] at hnd
            cases hnd
          · have ha' : (dayRange ci co).any (fun x => isDateBooked booked x) = false := by
              cases hx : (dayRange ci co).any (fun x => isDateBooked booked x)
              · rfl
              · exact absurd hx ha
            rw [ha'] at hnd
            simp only [Bool.false_eq_true, if_false] at hnd
            cases hnd
            refine ⟨rfl, hb', ?_⟩
            intro ci' co' h1 h2
            rw [hci] at h1
            rw [hco] at h2
            cases h1
            cases h2
            exact ⟨by omega, ha'⟩

theorem datesOrdered_applyDateChangeDraft (booked : List Int) (st : Draft)
    (ty : DateField) (d : Int) (h : datesOrdered st) :
    datesOrdered (applyDateChangeDraft booked st ty d) := by
  unfold applyDateChangeDraft
  rcases hr : handleDateChange booked st ty d with msg | nd | _
  · exact h
  · intro ci co h1 h2
    exact ((handleDateChange_committed_inv booked st ty d nd hr).2.2 ci co h1 h2).1
  · exact h

/-- C9 witness: a blocked chosen date at a concrete state. -/
theorem c9_date_change_atomic_witness :
    isDateBooked [5] 5 = true ∧
    applyDateChange [5] (initialDraft "gintaras", none) .checkIn 5 =
      (initialDraft "gintaras", some "This date is already booked") :=
  ⟨by decide,
   (c9_date_change_atomic [5] (initialDraft "gintaras") none .checkIn 5).1
     (by decide)⟩

/-- C7 counterexample: from the initial draft with no blocked dates, picking
check-in day 10 and then check-out day 10 is accepted, reaching a state with
both dates set and the check-out not strictly after the check-in. -/
theorem c7_counterexample :
    Reachable "gintaras" [] sameDayDraft ∧
    sameDayDraft.checkIn = some 10 ∧ sameDayDraft.checkOut = some 10 ∧
    ¬((10 : Int) < 10) := by
  refine ⟨?_, rfl, rfl, by omega⟩
  have h1 : applyDateChangeDraft [] (initialDraft "gintaras") .checkIn 10 =
      { initialDraft "gintaras" with checkIn := some 10 } := by decide
  have h2 : applyDateChangeDraft []
      { initialDraft "gintaras" with checkIn := some 10 } .checkOut 10 =
      sameDayDraft := by decide
  have r1 := Reachable.dateStep (initialDraft "gintaras") DateField.checkIn 10
    (Reachable.init : Reachable "gintaras" [] (initialDraft "gintaras"))
  rw [h1] at r1
  have r2 := Reachable.dateStep _ DateField.checkOut 10 r1
  rw [h2] at r2
  exact r2

/-- C7 as amended: in every reachable draft state, once both dates are set
the check-out is on or after the check-in (equality is reachable, so the
strict form fails; strictness is enforced only by the submit transition,
which rejects a check-out not strictly after the check-in); and whenever a
new unblocked check-in is chosen that is not before the current check-out,
the check-out is cleared. -/
theorem c7_dates_invariant (apId : String) (booked : List Int) (st : Draft)
    (h : Reachable apId booked st) :
    datesOrdered st ∧
    (∀ c d, st.checkOut = some c → isDateBooked booked d = false → c ≤ d →
      (applyDateChangeDraft booked st .checkIn d).checkOut = none) ∧
    (handleSubmit st = .toSummary →
      ∃ ci co, st.checkIn = some ci ∧ st.checkOut = some co ∧ ci < co) := by
  refine ⟨?_, ?_, ?_⟩
  · induction h with
    | init =>
      intro ci co h1 h2
      cases h1
    | dateStep st ty d hst ih =>
      exact datesOrdered_applyDateChangeDraft booked st ty d ih
    | guestStep st f hst ih =>
      cases f <;> exact fun ci co h1 h2 => ih ci co h1 h2
  · intro c d hco hfree hle
    unfold applyDateChangeDraft handleDateChange proposedDraft
    rw [hfree, hco]
    simp [hle]
  · intro hsub
    unfold handleSubmit at hsub
    rcases hci : st.checkIn with _ | ci
    · rw [hci] at hsub
      rcases hco : st.checkOut with _ | co <;> rw [hco] at hsub <;> simp at hsub
    · rw [hci] at hsub
      rcases hco : st.checkOut with _ | co
      · rw [hco] at hsub
        simp at hsub
      · rw [hco] at hsub
        dsimp only at hsub
        by_cases hf : (truthyStr st.guestEmail && truthyStr st.guestName &&
            truthyStr st.country && truthyStr st.phoneNumber &&
            truthyNum st.numberOfGuests) = true
        · rw [if_pos hf] at hsub
          by_cases hord : co ≤ ci
          · rw [if_pos hord] at hsub
            cases hsub
          · exact ⟨ci, co, rfl, rfl, by omega⟩
        · rw [if_neg hf] at hsub
          cases hsub

/-- C7 witness: the invariant instantiated at the initial reachable state. -/
theorem c7_dates_invariant_witness :
    Reachable "gintaras" [] (initialDraft "gintaras") ∧
    (datesOrdered (initialDraft "gintaras") ∧
      (∀ c d, (initialDraft "gintaras").checkOut = some c →
        isDateBooked [] d = false → c ≤ d →
        (applyDateChangeDraft [] (initialDraft "gintaras") .checkIn d).checkOut = none) ∧
      (handleSubmit (initialDraft "gintaras") = .toSummary →
        ∃ ci co, (initialDraft "gintaras").checkIn = some ci ∧
          (initialDraft "gintaras").checkOut = some co ∧ ci < co)) :=
  ⟨Reachable.init,
   c7_dates_invariant "gintaras" [] (initialDraft "gintaras") Reachable.init⟩
